import Mathlib

/-!
Shallow embedding of the students-api repository (Go) for specification
checking.

The repository is a CRUD HTTP API over one SQLite table
students(id INTEGER PRIMARY KEY AUTOINCREMENT, name TEXT, email TEXT, age INTEGER).

Embedded components:
* internal/types/types.go            : the Student struct
* internal/utils/response/response.go: Response, GeneralError, ValidationError
* the go-playground validator, as used on Student (tag required only;
  required fails exactly on the zero value; fields visited in struct
  declaration order Id, Email, Name, Age; Id carries no tag)
* internal/storage/sqlite/sqlite.go  : the five table operations, modelled as
  explicit state passing over a DB value (rows plus the AUTOINCREMENT counter);
  driver faults are not modelled at this layer, so the only errors these
  functions return are the two the code constructs itself (not-found and
  no-rows-affected)
* internal/http/handlers/student/student.go : the six handlers, written
  against an abstract storage call (a state-passing function), mirroring the
  Storage interface of internal/storage/storage.go; this lets theorems also
  inject a failing storage call where a claim speaks about storage errors
* cmd/students-api/main.go           : the wiring of handlers to sqlite.

HTTP responses are modelled as the list of WriteJSON calls a handler makes,
each recording the status code and the value handed to the JSON encoder.
A call to log.Fatal is modelled as a distinct terminal outcome, since it
kills the process without writing a response.
-/

/-- internal/types/types.go: the Student struct. Field order is the Go
declaration order Id, Email, Name, Age; Email, Name and Age carry the
validator tag required, Id carries none. -/
structure Student where
  Id : Int
  Email : String
  Name : String
  Age : Int
deriving DecidableEq, Repr

/-- internal/utils/response/response.go: the Response envelope struct with
fields Status and Error. -/
structure Response where
  Status : String
  Error : String
deriving DecidableEq, Repr

/-- response.GeneralError: wraps an error message in the envelope with
Status set to Error. -/
def GeneralError (err : String) : Response :=
  { Status := "Error", Error := err }

/-- One entry of validator.ValidationErrors: the struct field name and the
validation tag that failed (ActualTag). -/
structure FieldError where
  field : String
  actualTag : String
deriving DecidableEq, Repr

/-- The message response.ValidationError builds for one field error: the
switch on ActualTag with case required and a default branch. -/
def fieldErrorMsg (e : FieldError) : String :=
  if e.actualTag = "required" then "field " ++ e.field ++ " is required"
  else "field " ++ e.field ++ " is invalid"

/-- response.ValidationError: one message per failing field, joined with
a comma and a space, wrapped in the envelope with Status set to Error. -/
def ValidationError (errs : List FieldError) : Response :=
  { Status := "Error", Error := String.intercalate ", " (errs.map fieldErrorMsg) }

/-- The go-playground validator applied to a Student value: the tag
required fails exactly when the field holds its zero value (empty string,
zero integer); fields are visited in struct declaration order
Id, Email, Name, Age, and Id has no tag. Returns the list of field
errors; the validator call in the handlers reports failure exactly when
this list is nonempty. -/
def validateStudent (s : Student) : List FieldError :=
  (if s.Email = "" then [{ field := "Email", actualTag := "required" }] else []) ++
  (if s.Name = "" then [{ field := "Name", actualTag := "required" }] else []) ++
  (if s.Age = 0 then [{ field := "Age", actualTag := "required" }] else [])

/-- The spec phrase valid Student: non-empty name, non-empty email,
non-zero age. -/
def validStudent (s : Student) : Prop :=
  s.Name ≠ "" ∧ s.Email ≠ "" ∧ s.Age ≠ 0

instance (s : Student) : Decidable (validStudent s) := by
  unfold validStudent; infer_instance

/-- The value a handler hands to response.WriteJSON: either the Response
envelope, a raw error value passed directly to the encoder, the
one-field id map of the create handler, a Student, a list of Students,
or a plain string message. -/
inductive JSONData
  | resp (r : Response)
  | rawErr (msg : String)
  | idMap (id : Int)
  | studentData (s : Student)
  | studentList (l : List Student)
  | str (s : String)
deriving DecidableEq, Repr

/-- One call to response.WriteJSON: the HTTP status code and the data
handed to the JSON encoder. -/
structure Write where
  status : Nat
  data : JSONData
deriving DecidableEq, Repr

/-- What a handler invocation does to the response: either it responds
with a list of WriteJSON calls (in order), or it hits log.Fatal, which
terminates the process without responding. -/
inductive HandlerOutcome
  | responded (writes : List Write)
  | fatal (msg : String)
deriving DecidableEq, Repr

/-- True exactly when the data written is the Response envelope. -/
def isEnvelope : JSONData → Bool
  | .resp _ => true
  | _ => false

/-- True exactly when the handler hit log.Fatal. -/
def isFatal : HandlerOutcome → Bool
  | .fatal _ => true
  | _ => false

/-- The status codes of the writes of an outcome, in order. -/
def writeStatuses : HandlerOutcome → List Nat
  | .responded ws => ws.map Write.status
  | .fatal _ => []

/-- The three outcomes of json.NewDecoder(r.Body).Decode(student): io.EOF
on an empty body, some other decode error on malformed JSON (msg is the
error text), or a decoded Student value. -/
inductive Body
  | empty
  | malformed (msg : String)
  | decoded (s : Student)
deriving DecidableEq, Repr

/-- Go double-quoting of a string as the strconv error messages print it
(plain characters only, as in the id path parameters considered here). -/
def goQuote (s : String) : String := "\"" ++ s ++ "\""

/-- Largest int64 value. -/
def int64Max : Int := 9223372036854775807

/-- Smallest int64 value. -/
def int64Min : Int := -9223372036854775808

/-- strconv.ParseInt(s, 10, 64): an optional sign followed by at least one
decimal digit, rejected when the value does not fit in int64. The error
texts are the strconv NumError messages. -/
def parseInt64 (s : String) : Except String Int :=
  let synErrMsg := "strconv.ParseInt: parsing " ++ goQuote s ++ ": invalid syntax"
  let rangeErrMsg := "strconv.ParseInt: parsing " ++ goQuote s ++ ": value out of range"
  let signDigits : Bool × List Char :=
    match s.data with
    | '+' :: rest => (false, rest)
    | '-' :: rest => (true, rest)
    | l => (false, l)
  let neg := signDigits.1
  let ds := signDigits.2
  if ds.isEmpty then .error synErrMsg
  else if ds.all Char.isDigit then
    let n : Nat := ds.foldl (fun a c => a * 10 + (c.toNat - 48)) 0
    let v : Int := if neg then -(n : Int) else (n : Int)
    if int64Min ≤ v ∧ v ≤ int64Max then .ok v else .error rangeErrMsg
  else .error synErrMsg

namespace sqlite

/-- The students table of internal/storage/sqlite/sqlite.go: the rows in
storage order and the AUTOINCREMENT counter (the next id to assign;
deletes never lower it). -/
structure DB where
  rows : List Student
  nextId : Int
deriving DecidableEq, Repr

/-- The freshly created table: no rows, first AUTOINCREMENT id is 1. -/
def DB.empty : DB := { rows := [], nextId := 1 }

/-- sqlite.CreateStudent: INSERT INTO students (name,email,age) VALUES
(?,?,?), then LastInsertId. The new row gets the AUTOINCREMENT id and the
exact values passed by the caller; no validation happens here. -/
def CreateStudent (db : DB) (name email : String) (age : Int) :
    Except String Int × DB :=
  let id := db.nextId
  (.ok id,
   { rows := db.rows ++ [{ Id := id, Email := email, Name := name, Age := age }],
     nextId := id + 1 })

/-- sqlite.GetStudentById: SELECT * FROM students WHERE id = ?, Scan into a
Student; sql.ErrNoRows becomes the not-found error with the id printed. -/
def GetStudentById (db : DB) (id : Int) : Except String Student × DB :=
  match db.rows.find? (fun s => s.Id == id) with
  | some s => (.ok s, db)
  | none => (.error ("student not found with id " ++ toString id), db)

/-- sqlite.GetAllStudents: SELECT id,name,email,age FROM students, all rows
in storage order. -/
def GetAllStudents (db : DB) : Except String (List Student) × DB :=
  (.ok db.rows, db)

/-- sqlite.UpdateStudent: UPDATE students SET name=?, email=?, age=? WHERE
id=?, then RowsAffected; zero affected rows yields the error
no rows affected, otherwise the returned Student is rebuilt from the
arguments (Age, Email, Name, Id assigned in the code), not re-read. -/
def UpdateStudent (db : DB) (id : Int) (name email : String) (age : Int) :
    Except String Student × DB :=
  let rowsAffected := (db.rows.filter (fun s => s.Id == id)).length
  let newRows := db.rows.map (fun s =>
    if s.Id == id then { s with Name := name, Email := email, Age := age } else s)
  let db' : DB := { db with rows := newRows }
  if rowsAffected = 0 then (.error "no rows affected", db')
  else (.ok { Id := id, Email := email, Name := name, Age := age }, db')

/-- sqlite.DeleteStudentById: DELETE FROM students WHERE id=?; the result
is discarded, so a missing id is not an error. -/
def DeleteStudentById (db : DB) (id : Int) : Except String Unit × DB :=
  (.ok (), { db with rows := db.rows.filter (fun s => !(s.Id == id)) })

/-- sqlite.DeleteAllStudents: DELETE FROM students. -/
def DeleteAllStudents (db : DB) : Except String Unit × DB :=
  (.ok (), { db with rows := [] })

end sqlite

namespace student

/-!
The handlers of internal/http/handlers/student/student.go. Each is written
against the storage call it makes, abstracted as a state-passing function
(mirroring the Storage interface parameter of the Go handlers), and takes
the decoded request body or the raw id path parameter. The returned pair
is the response outcome and the storage state after the call.
-/

/-- student.New (POST): empty body yields 400 with the empty body envelope;
any other decode error yields 400 with the envelope; a validation failure
yields 400 with the ValidationError envelope; a storage error yields 500
with the raw error value (not the envelope); success yields 201 with the
one-field id map. -/
def New {σ : Type} (create : σ → String → String → Int → Except String Int × σ)
    (st : σ) (body : Body) : HandlerOutcome × σ :=
  match body with
  | .empty =>
    (.responded [{ status := 400, data := .resp (GeneralError "empty body") }], st)
  | .malformed msg =>
    (.responded [{ status := 400, data := .resp (GeneralError msg) }], st)
  | .decoded s =>
    match validateStudent s with
    | e :: rest =>
      (.responded [{ status := 400, data := .resp (ValidationError (e :: rest)) }], st)
    | [] =>
      match create st s.Name s.Email s.Age with
      | (.error e, st') => (.responded [{ status := 500, data := .rawErr e }], st')
      | (.ok lastID, st') => (.responded [{ status := 201, data := .idMap lastID }], st')

/-- student.GetById (GET with id): a malformed id hits log.Fatal; a storage
error yields 500 with the envelope; success yields 200 with the Student. -/
def GetById {σ : Type} (get : σ → Int → Except String Student × σ)
    (st : σ) (idStr : String) : HandlerOutcome × σ :=
  match parseInt64 idStr with
  | .error _ => (.fatal "Error during conversion from tring to int64", st)
  | .ok intId =>
    match get st intId with
    | (.error e, st') =>
      (.responded [{ status := 500, data := .resp (GeneralError e) }], st')
    | (.ok s, st') => (.responded [{ status := 200, data := .studentData s }], st')

/-- student.GetAll (GET): a storage error yields 500 with the raw error
value (not the envelope); success yields 200 with the list of Students. -/
def GetAll {σ : Type} (getAll : σ → Except String (List Student) × σ)
    (st : σ) : HandlerOutcome × σ :=
  match getAll st with
  | (.error e, st') => (.responded [{ status := 500, data := .rawErr e }], st')
  | (.ok l, st') => (.responded [{ status := 200, data := .studentList l }], st')

/-- student.Update (PUT): a malformed id hits log.Fatal; an empty body
yields 500 with the envelope around the io.EOF message; any other decode
error yields 500 with the envelope; a validation failure yields 400 with
the ValidationError envelope; a storage error yields 500 with the envelope;
success yields 200 with the updated Student. -/
def Update {σ : Type}
    (update : σ → Int → String → String → Int → Except String Student × σ)
    (st : σ) (idStr : String) (body : Body) : HandlerOutcome × σ :=
  match parseInt64 idStr with
  | .error _ => (.fatal "error converting string to int", st)
  | .ok intId =>
    match body with
    | .empty =>
      (.responded [{ status := 500, data := .resp (GeneralError "EOF") }], st)
    | .malformed msg =>
      (.responded [{ status := 500, data := .resp (GeneralError msg) }], st)
    | .decoded s =>
      match validateStudent s with
      | e :: rest =>
        (.responded [{ status := 400, data := .resp (ValidationError (e :: rest)) }], st)
      | [] =>
        match update st intId s.Name s.Email s.Age with
        | (.error e, st') =>
          (.responded [{ status := 500, data := .resp (GeneralError e) }], st')
        | (.ok updated, st') =>
          (.responded [{ status := 200, data := .studentData updated }], st')

/-- student.DeleteById (DELETE with id): a malformed id yields 500 with the
envelope (and returns); a storage error writes 500 with the envelope but
does NOT return, so the 200 success write follows it in the same response;
success yields just the 200 success write. -/
def DeleteById {σ : Type} (delete : σ → Int → Except String Unit × σ)
    (st : σ) (idStr : String) : HandlerOutcome × σ :=
  match parseInt64 idStr with
  | .error e =>
    (.responded [{ status := 500, data := .resp (GeneralError e) }], st)
  | .ok intId =>
    match delete st intId with
    | (.error e, st') =>
      (.responded [{ status := 500, data := .resp (GeneralError e) },
                   { status := 200, data := .str "student deleted successfully" }], st')
    | (.ok _, st') =>
      (.responded [{ status := 200, data := .str "student deleted successfully" }], st')

/-- student.DeleteAll (DELETE): a storage error yields 500 with the
envelope; success yields 200 with the literal success message. -/
def DeleteAll {σ : Type} (deleteAll : σ → Except String Unit × σ)
    (st : σ) : HandlerOutcome × σ :=
  match deleteAll st with
  | (.error e, st') =>
    (.responded [{ status := 500, data := .resp (GeneralError e) }], st')
  | (.ok _, st') =>
    (.responded [{ status := 200, data := .str "deleted all students successfully" }], st')

end student

/-- One inbound HTTP request, as routed by cmd/students-api/main.go: the
six routes, carrying the id path parameter as the raw string and the
request body as its decode outcome. -/
inductive Request
  | create (body : Body)
  | getById (idStr : String)
  | getAll
  | update (idStr : String) (body : Body)
  | deleteById (idStr : String)
  | deleteAll
deriving DecidableEq, Repr

/-- The wiring of main.go: each route handled by its handler over the
sqlite storage. -/
def handle (db : sqlite.DB) (r : Request) : HandlerOutcome × sqlite.DB :=
  match r with
  | .create body => student.New sqlite.CreateStudent db body
  | .getById idStr => student.GetById sqlite.GetStudentById db idStr
  | .getAll => student.GetAll sqlite.GetAllStudents db
  | .update idStr body => student.Update sqlite.UpdateStudent db idStr body
  | .deleteById idStr => student.DeleteById sqlite.DeleteStudentById db idStr
  | .deleteAll => student.DeleteAll sqlite.DeleteAllStudents db

/-- The table state after serving a sequence of requests. -/
def run (db : sqlite.DB) (rs : List Request) : sqlite.DB :=
  rs.foldl (fun d r => (handle d r).2) db

/-!
## Helper lemmas
-/

theorem validateStudent_eq_nil_iff (s : Student) :
    validateStudent s = [] ↔ validStudent s := by
  unfold validateStudent validStudent
  split_ifs <;> simp_all

/-- The table invariant maintained by the served system: the AUTOINCREMENT
counter is positive and bounds every stored id strictly, and every stored
row passes validation. -/
def DBinv (db : sqlite.DB) : Prop :=
  0 < db.nextId ∧ ∀ s ∈ db.rows, s.Id < db.nextId ∧ validStudent s

theorem DBinv_empty : DBinv sqlite.DB.empty := by
  constructor
  · decide
  · intro s hs
    simp [sqlite.DB.empty] at hs

theorem UpdateStudent_snd (db : sqlite.DB) (id : Int) (name email : String)
    (age : Int) :
    (sqlite.UpdateStudent db id name email age).2
      = { db with rows := db.rows.map (fun s =>
            if s.Id == id then { s with Name := name, Email := email, Age := age }
            else s) } := by
  unfold sqlite.UpdateStudent
  dsimp only
  split <;> rfl

theorem handle_inv (db : sqlite.DB) (r : Request) (h : DBinv db) :
    DBinv (handle db r).2 := by
  obtain ⟨hpos, hrows⟩ := h
  cases r with
  | create body =>
    show DBinv (student.New sqlite.CreateStudent db body).2
    unfold student.New
    cases body with
    | empty => exact ⟨hpos, hrows⟩
    | malformed msg => exact ⟨hpos, hrows⟩
    | decoded s =>
      dsimp only
      cases hv : validateStudent s with
      | cons e rest => exact ⟨hpos, hrows⟩
      | nil =>
        dsimp only [sqlite.CreateStudent]
        refine ⟨?_, ?_⟩
        · show (0 : Int) < db.nextId + 1
          omega
        · intro t ht
          show t.Id < db.nextId + 1 ∧ validStudent t
          have ht' : t ∈ db.rows ++
              [{ Id := db.nextId, Email := s.Email, Name := s.Name, Age := s.Age }] := ht
          simp only [List.mem_append, List.mem_singleton] at ht'
          rcases ht' with ht' | ht'
          · have := hrows t ht'
            exact ⟨by omega, this.2⟩
          · subst ht'
            have hvalid : validStudent s := (validateStudent_eq_nil_iff s).mp hv
            exact ⟨by show db.nextId < db.nextId + 1; omega,
                   hvalid.1, hvalid.2.1, hvalid.2.2⟩
  | getById idStr =>
    show DBinv (student.GetById sqlite.GetStudentById db idStr).2
    unfold student.GetById
    cases hp : parseInt64 idStr with
    | error e => exact ⟨hpos, hrows⟩
    | ok intId =>
      dsimp only [sqlite.GetStudentById]
      cases db.rows.find? (fun s => s.Id == intId) <;> exact ⟨hpos, hrows⟩
  | getAll => exact ⟨hpos, hrows⟩
  | update idStr body =>
    show DBinv (student.Update sqlite.UpdateStudent db idStr body).2
    unfold student.Update
    cases hp : parseInt64 idStr with
    | error e => exact ⟨hpos, hrows⟩
    | ok intId =>
      dsimp only
      cases body with
      | empty => exact ⟨hpos, hrows⟩
      | malformed msg => exact ⟨hpos, hrows⟩
      | decoded s =>
        dsimp only
        cases hv : validateStudent s with
        | cons e rest => exact ⟨hpos, hrows⟩
        | nil =>
          dsimp only
          have hvalid : validStudent s := (validateStudent_eq_nil_iff s).mp hv
          have hinv : DBinv (sqlite.UpdateStudent db intId s.Name s.Email s.Age).2 := by
            rw [UpdateStudent_snd]
            refine ⟨hpos, ?_⟩
            intro t ht
            simp only [List.mem_map] at ht
            obtain ⟨u, hu_mem, hu_eq⟩ := ht
            have hu_inv := hrows u hu_mem
            by_cases hid : u.Id == intId
            · rw [if_pos hid] at hu_eq
              subst hu_eq
              exact ⟨hu_inv.1, hvalid.1, hvalid.2.1, hvalid.2.2⟩
            · rw [if_neg hid] at hu_eq
              subst hu_eq
              exact hu_inv
          cases hu : sqlite.UpdateStudent db intId s.Name s.Email s.Age with
          | mk res db' =>
            rw [hu] at hinv
            cases res <;> exact hinv
  | deleteById idStr =>
    show DBinv (student.DeleteById sqlite.DeleteStudentById db idStr).2
    unfold student.DeleteById
    cases hp : parseInt64 idStr with
    | error e => exact ⟨hpos, hrows⟩
    | ok intId =>
      dsimp only [sqlite.DeleteStudentById]
      refine ⟨hpos, ?_⟩
      intro t ht
      simp only [List.mem_filter] at ht
      exact hrows t ht.1
  | deleteAll =>
    refine ⟨hpos, ?_⟩
    intro t ht
    simp [handle, student.DeleteAll, sqlite.DeleteAllStudents] at ht

theorem run_inv (rs : List Request) (db : sqlite.DB) (h : DBinv db) :
    DBinv (run db rs) := by
  induction rs generalizing db with
  | nil => exact h
  | cons r rest ih =>
    have h1 : DBinv (handle db r).2 := handle_inv db r h
    exact ih _ h1

theorem find?_append_first_none {α : Type} (l₁ l₂ : List α) (p : α → Bool)
    (h : ∀ x ∈ l₁, p x = false) : (l₁ ++ l₂).find? p = l₂.find? p := by
  rw [List.find?_append]
  have h1 : l₁.find? p = none := by
    rw [List.find?_eq_none]
    intro x hx
    simp [h x hx]
  rw [h1]
  rfl

/-!
## Claim theorems
-/

/-- C1: for every reachable table state and every valid Student input
(non-empty name, non-empty email, non-zero age), the create handler
responds 201 with a positive id, and GetStudentById on that id afterwards
returns the Student whose name, email and age are the input and whose Id
is that id. -/
theorem C1_create_then_get (rs : List Request) (s : Student)
    (hv : validStudent s) :
    ∃ id : Int, ∃ db' : sqlite.DB,
      student.New sqlite.CreateStudent (run sqlite.DB.empty rs) (Body.decoded s)
        = (.responded [{ status := 201, data := .idMap id }], db') ∧
      0 < id ∧
      (sqlite.GetStudentById db' id).1
        = .ok { Id := id, Email := s.Email, Name := s.Name, Age := s.Age } := by
  have hinv : DBinv (run sqlite.DB.empty rs) := run_inv rs _ DBinv_empty
  obtain ⟨hpos, hrows⟩ := hinv
  have hv0 : validateStudent s = [] := (validateStudent_eq_nil_iff s).mpr hv
  refine ⟨(run sqlite.DB.empty rs).nextId,
          (sqlite.CreateStudent (run sqlite.DB.empty rs) s.Name s.Email s.Age).2,
          ?_, hpos, ?_⟩
  · unfold student.New
    dsimp only
    rw [hv0]
    rfl
  · dsimp only [sqlite.CreateStudent]
    unfold sqlite.GetStudentById
    dsimp only
    rw [find?_append_first_none]
    · simp
    · intro x hx
      have hlt : x.Id < (run sqlite.DB.empty rs).nextId := (hrows x hx).1
      simp only [beq_eq_false_iff_ne, ne_eq]
      omega

/-- C1 witness: on the empty table, creating a concrete valid Student and
reading it back. -/
theorem C1_create_then_get_witness :
    validStudent { Id := 0, Email := "a@b.com", Name := "n", Age := 5 } ∧
    (∃ id : Int, ∃ db' : sqlite.DB,
      student.New sqlite.CreateStudent (run sqlite.DB.empty [])
          (Body.decoded { Id := 0, Email := "a@b.com", Name := "n", Age := 5 })
        = (.responded [{ status := 201, data := .idMap id }], db') ∧
      0 < id ∧
      (sqlite.GetStudentById db' id).1
        = .ok { Id := id, Email := "a@b.com", Name := "n", Age := 5 }) :=
  ⟨by decide, C1_create_then_get [] _ (by decide)⟩

/-- C8: in every state reachable through the handlers from the empty
table, every persisted row has non-empty name, non-empty email and
non-zero age; and the storage layer itself appends exactly the row its
caller passes, with no validation of its own. -/
theorem C8_rows_valid :
    (∀ rs : List Request, ∀ s ∈ (run sqlite.DB.empty rs).rows, validStudent s) ∧
    (∀ (db : sqlite.DB) (name email : String) (age : Int),
      ((sqlite.CreateStudent db name email age).2).rows
        = db.rows ++ [{ Id := db.nextId, Email := email, Name := name, Age := age }]) := by
  constructor
  · intro rs s hs
    exact ((run_inv rs _ DBinv_empty).2 s hs).2
  · intro db name email age
    rfl

/-- C2: UpdateStudent overwrites name, email and age of the row with the
given id; when a row with the id exists the returned Student is rebuilt
from the arguments alone (so it never depends on what was stored); when no
row has the id it returns the no rows affected error instead of silently
succeeding. -/
theorem C2_update_semantics (db : sqlite.DB) (id : Int) (name email : String)
    (age : Int) :
    ((∃ s ∈ db.rows, s.Id = id) →
      (sqlite.UpdateStudent db id name email age).1
        = .ok { Id := id, Email := email, Name := name, Age := age } ∧
      ((sqlite.UpdateStudent db id name email age).2).rows
        = db.rows.map (fun s =>
            if s.Id = id then { s with Name := name, Email := email, Age := age }
            else s)) ∧
    ((∀ s ∈ db.rows, s.Id ≠ id) →
      (sqlite.UpdateStudent db id name email age).1 = .error "no rows affected") := by
  have hmap : db.rows.map (fun s =>
        if s.Id == id then { s with Name := name, Email := email, Age := age }
        else s)
      = db.rows.map (fun s =>
        if s.Id = id then { s with Name := name, Email := email, Age := age }
        else s) := by
    apply List.map_congr_left
    intro a _
    by_cases h : a.Id = id <;> simp [h]
  constructor
  · rintro ⟨s0, hs0, hid⟩
    have hne : ¬ (db.rows.filter (fun s => s.Id == id)).length = 0 := by
      intro hlen
      rw [List.length_eq_zero, List.filter_eq_nil_iff] at hlen
      have := hlen s0 hs0
      simp [hid] at this
    unfold sqlite.UpdateStudent
    dsimp only
    rw [if_neg hne]
    exact ⟨rfl, hmap⟩
  · intro hall
    have h0 : (db.rows.filter (fun s => s.Id == id)).length = 0 := by
      rw [List.length_eq_zero, List.filter_eq_nil_iff]
      intro s hs
      simp [hall s hs]
    unfold sqlite.UpdateStudent
    dsimp only
    rw [if_pos h0]

/-- C2 witness: updating an existing row succeeds with the rebuilt
Student; updating a missing id fails with no rows affected. -/
theorem C2_update_semantics_witness :
    ((sqlite.UpdateStudent
        { rows := [{ Id := 1, Email := "a@b.com", Name := "n", Age := 5 }], nextId := 2 }
        1 "m" "c@d.com" 7).1
      = .ok { Id := 1, Email := "c@d.com", Name := "m", Age := 7 }) ∧
    ((sqlite.UpdateStudent sqlite.DB.empty 1 "m" "c@d.com" 7).1
      = .error "no rows affected") :=
  ⟨((C2_update_semantics
      { rows := [{ Id := 1, Email := "a@b.com", Name := "n", Age := 5 }], nextId := 2 }
      1 "m" "c@d.com" 7).1
      ⟨{ Id := 1, Email := "a@b.com", Name := "n", Age := 5 }, by decide, by decide⟩).1,
   (C2_update_semantics sqlite.DB.empty 1 "m" "c@d.com" 7).2 (by decide)⟩

/-- C7: DeleteStudentById always succeeds, whether or not a row with the
id exists, and deleting the same id twice gives exactly the same result
and state as deleting it once. -/
theorem C7_delete_idempotent (db : sqlite.DB) (id : Int) :
    (sqlite.DeleteStudentById db id).1 = .ok () ∧
    sqlite.DeleteStudentById (sqlite.DeleteStudentById db id).2 id
      = sqlite.DeleteStudentById db id := by
  refine ⟨rfl, ?_⟩
  unfold sqlite.DeleteStudentById
  simp [List.filter_filter]

/-- C10: when UpdateStudent reports no rows affected, the table is left
exactly as it was: no row created, deleted or modified. -/
theorem C10_failed_update_unchanged (db : sqlite.DB) (id : Int)
    (name email : String) (age : Int)
    (h : (sqlite.UpdateStudent db id name email age).1 = .error "no rows affected") :
    (sqlite.UpdateStudent db id name email age).2 = db := by
  by_cases h0 : (db.rows.filter (fun s => s.Id == id)).length = 0
  · have hall : ∀ s ∈ db.rows, (s.Id == id) = false := by
      have hnil : db.rows.filter (fun s => s.Id == id) = [] :=
        List.length_eq_zero.mp h0
      intro s hs
      have := List.filter_eq_nil_iff.mp hnil s hs
      simpa using this
    have hmap : db.rows.map (fun s =>
        if s.Id == id then { s with Name := name, Email := email, Age := age }
        else s) = db.rows := by
      conv_rhs => rw [← List.map_id db.rows]
      apply List.map_congr_left
      intro a ha
      rw [hall a ha]
      rfl
    unfold sqlite.UpdateStudent
    dsimp only
    rw [if_pos h0]
    show { db with rows := db.rows.map _ } = db
    rw [hmap]
  · unfold sqlite.UpdateStudent at h
    dsimp only at h
    rw [if_neg h0] at h
    simp at h

/-- C10 witness: a failed update of the empty table leaves it empty. -/
theorem C10_failed_update_unchanged_witness :
    (sqlite.UpdateStudent sqlite.DB.empty 1 "m" "c@d.com" 7).1
      = .error "no rows affected" ∧
    (sqlite.UpdateStudent sqlite.DB.empty 1 "m" "c@d.com" 7).2 = sqlite.DB.empty :=
  ⟨by rfl, C10_failed_update_unchanged sqlite.DB.empty 1 "m" "c@d.com" 7 (by rfl)⟩

/-- C8 witness: the row persisted by a concrete create request is valid. -/
theorem C8_rows_valid_witness :
    ({ Id := 1, Email := "a@b.com", Name := "n", Age := 5 } : Student) ∈
      (run sqlite.DB.empty
        [Request.create (Body.decoded { Id := 0, Email := "a@b.com", Name := "n", Age := 5 })]).rows ∧
    validStudent { Id := 1, Email := "a@b.com", Name := "n", Age := 5 } :=
  ⟨by decide, C8_rows_valid.1
      [Request.create (Body.decoded { Id := 0, Email := "a@b.com", Name := "n", Age := 5 })]
      { Id := 1, Email := "a@b.com", Name := "n", Age := 5 } (by decide)⟩

/-- C3: whenever the decoded Student of a create or update request fails
validation, the response is HTTP 400 carrying the ValidationError
envelope (one message per failing field, required tag giving field X is
required and any other tag field X is invalid, joined by a comma and a
space); in particular the create request whose decoded body has an empty
name, email a@b.com and age 5 yields 400 with the exact error text
field Name is required. -/
theorem C3_validation_response :
    (∀ (db : sqlite.DB) (s : Student) (e : FieldError) (rest : List FieldError),
      validateStudent s = e :: rest →
      (student.New sqlite.CreateStudent db (Body.decoded s)).1
        = .responded [{ status := 400, data := .resp (ValidationError (e :: rest)) }]) ∧
    (∀ (db : sqlite.DB) (idStr : String) (id : Int) (s : Student)
        (e : FieldError) (rest : List FieldError),
      parseInt64 idStr = .ok id →
      validateStudent s = e :: rest →
      (student.Update sqlite.UpdateStudent db idStr (Body.decoded s)).1
        = .responded [{ status := 400, data := .resp (ValidationError (e :: rest)) }]) ∧
    (∀ db : sqlite.DB,
      (student.New sqlite.CreateStudent db
          (Body.decoded { Id := 0, Email := "a@b.com", Name := "", Age := 5 })).1
        = .responded
            [{ status := 400,
               data := .resp { Status := "Error", Error := "field Name is required" } }]) := by
  refine ⟨?_, ?_, ?_⟩
  · intro db s e rest hv
    unfold student.New
    dsimp only
    rw [hv]
  · intro db idStr id s e rest hp hv
    unfold student.Update
    rw [hp]
    dsimp only
    rw [hv]
  · intro db
    rfl

/-- C3 witness: the concrete invalid Student rejected by both the create
and the update handler with status 400. -/
theorem C3_validation_response_witness :
    ((student.New sqlite.CreateStudent sqlite.DB.empty
        (Body.decoded { Id := 0, Email := "a@b.com", Name := "", Age := 5 })).1
      = .responded
          [{ status := 400,
             data := .resp (ValidationError [{ field := "Name", actualTag := "required" }]) }]) ∧
    ((student.Update sqlite.UpdateStudent sqlite.DB.empty "1"
        (Body.decoded { Id := 0, Email := "a@b.com", Name := "", Age := 5 })).1
      = .responded
          [{ status := 400,
             data := .resp (ValidationError [{ field := "Name", actualTag := "required" }]) }]) :=
  ⟨C3_validation_response.1 sqlite.DB.empty
      { Id := 0, Email := "a@b.com", Name := "", Age := 5 }
      { field := "Name", actualTag := "required" } [] (by rfl),
   C3_validation_response.2.1 sqlite.DB.empty "1" 1
      { Id := 0, Email := "a@b.com", Name := "", Age := 5 }
      { field := "Name", actualTag := "required" } [] (by rfl) (by rfl)⟩

/-- C4 counterexample: the update handler answers an empty body with HTTP
500 wrapping the EOF message, not with status 400, refuting the claim
that both body-accepting operations answer these cases with 400. -/
theorem C4_counterexample :
    (student.Update sqlite.UpdateStudent sqlite.DB.empty "1" Body.empty).1
      = .responded
          [{ status := 500,
             data := .resp { Status := "Error", Error := "EOF" } }] ∧
    writeStatuses
        (student.Update sqlite.UpdateStudent sqlite.DB.empty "1" Body.empty).1
      ≠ [400] := by
  exact ⟨rfl, by decide⟩

/-- C4 amended: the create handler answers an empty body with 400 and the
distinct message empty body and malformed JSON with 400 and the decode
error; the update handler answers both cases with HTTP 500, reporting an
empty body as the decoder EOF error. -/
theorem C4_amended (db : sqlite.DB) (m idStr : String) (id : Int)
    (hp : parseInt64 idStr = .ok id) :
    ((student.New sqlite.CreateStudent db Body.empty).1
       = .responded [{ status := 400, data := .resp (GeneralError "empty body") }]) ∧
    ((student.New sqlite.CreateStudent db (Body.malformed m)).1
       = .responded [{ status := 400, data := .resp (GeneralError m) }]) ∧
    ((student.Update sqlite.UpdateStudent db idStr Body.empty).1
       = .responded [{ status := 500, data := .resp (GeneralError "EOF") }]) ∧
    ((student.Update sqlite.UpdateStudent db idStr (Body.malformed m)).1
       = .responded [{ status := 500, data := .resp (GeneralError m) }]) := by
  unfold student.New student.Update
  rw [hp]
  exact ⟨rfl, rfl, rfl, rfl⟩

/-- C4 amended witness: the four decode error cases at concrete inputs. -/
theorem C4_amended_witness :
    ((student.New sqlite.CreateStudent sqlite.DB.empty Body.empty).1
       = .responded [{ status := 400, data := .resp (GeneralError "empty body") }]) ∧
    ((student.New sqlite.CreateStudent sqlite.DB.empty (Body.malformed "invalid character")).1
       = .responded [{ status := 400, data := .resp (GeneralError "invalid character") }]) ∧
    ((student.Update sqlite.UpdateStudent sqlite.DB.empty "1" Body.empty).1
       = .responded [{ status := 500, data := .resp (GeneralError "EOF") }]) ∧
    ((student.Update sqlite.UpdateStudent sqlite.DB.empty "1" (Body.malformed "invalid character")).1
       = .responded [{ status := 500, data := .resp (GeneralError "invalid character") }]) :=
  C4_amended sqlite.DB.empty "invalid character" "1" 1 (by rfl)

/-- C6 counterexample: the delete-by-id handler answers a malformed id
with an HTTP 500 response instead of terminating the process, refuting
the claim that all three id-keyed operations terminate. -/
theorem C6_counterexample :
    (student.DeleteById sqlite.DeleteStudentById sqlite.DB.empty "abc").1
      = .responded [{ status := 500, data := .resp (GeneralError
          "strconv.ParseInt: parsing \"abc\": invalid syntax") }] ∧
    isFatal (student.DeleteById sqlite.DeleteStudentById sqlite.DB.empty "abc").1
      = false :=
  ⟨rfl, rfl⟩

/-- C6 amended: a malformed path id terminates the process in get-by-id
and update (log.Fatal), while delete-by-id instead responds with HTTP 500
wrapping the parse error. -/
theorem C6_amended (idStr e : String) (h : parseInt64 idStr = .error e)
    (db : sqlite.DB) (body : Body) :
    ((student.GetById sqlite.GetStudentById db idStr).1
       = .fatal "Error during conversion from tring to int64") ∧
    ((student.Update sqlite.UpdateStudent db idStr body).1
       = .fatal "error converting string to int") ∧
    ((student.DeleteById sqlite.DeleteStudentById db idStr).1
       = .responded [{ status := 500, data := .resp (GeneralError e) }]) := by
  unfold student.GetById student.Update student.DeleteById
  rw [h]
  exact ⟨rfl, rfl, rfl⟩

/-- C6 amended witness: the three id-keyed handlers on the malformed id
abc. -/
theorem C6_amended_witness :
    ((student.GetById sqlite.GetStudentById sqlite.DB.empty "abc").1
       = .fatal "Error during conversion from tring to int64") ∧
    ((student.Update sqlite.UpdateStudent sqlite.DB.empty "abc" Body.empty).1
       = .fatal "error converting string to int") ∧
    ((student.DeleteById sqlite.DeleteStudentById sqlite.DB.empty "abc").1
       = .responded [{ status := 500, data := .resp (GeneralError
           "strconv.ParseInt: parsing \"abc\": invalid syntax") }]) :=
  C6_amended "abc" "strconv.ParseInt: parsing \"abc\": invalid syntax" (by rfl)
    sqlite.DB.empty Body.empty

/-- C9: when the storage delete call fails, the delete-by-id handler
writes the 500 error envelope and then, with no return in the error
branch, also writes the 200 success body into the same response. -/
theorem C9_delete_error_double_write (idStr e : String) (id : Int)
    (hp : parseInt64 idStr = .ok id) :
    (student.DeleteById (fun (u : Unit) _ => (.error e, u)) () idStr).1
      = .responded [{ status := 500, data := .resp (GeneralError e) },
                    { status := 200, data := .str "student deleted successfully" }] := by
  unfold student.DeleteById
  rw [hp]

/-- C9 witness: a concrete failing delete writes both the error envelope
and the success message. -/
theorem C9_delete_error_double_write_witness :
    (student.DeleteById (fun (u : Unit) _ => (.error "disk failure", u)) () "7").1
      = .responded [{ status := 500, data := .resp (GeneralError "disk failure") },
                    { status := 200, data := .str "student deleted successfully" }] :=
  C9_delete_error_double_write "7" "disk failure" 7 (by rfl)

/-- C5 counterexample: when the storage create call fails, the create
handler hands the raw error value to the JSON writer instead of the
envelope, refuting the claim that every surfaced error is wrapped in the
envelope. -/
theorem C5_counterexample :
    (student.New (fun (u : Unit) _ _ _ => (.error "storage failure", u)) ()
        (Body.decoded { Id := 0, Email := "a@b.com", Name := "n", Age := 5 })).1
      = .responded [{ status := 500, data := .rawErr "storage failure" }] ∧
    isEnvelope (JSONData.rawErr "storage failure") = false :=
  ⟨rfl, rfl⟩

/-- C5 amended: every error a handler surfaces is answered with the
Response envelope and none propagates past the handler, with exactly two
exceptions: the storage-error paths of create and of get-all hand the raw
error value to the JSON writer. The conjuncts walk every error path of
every handler, injecting a failing storage call where needed. -/
theorem C5_amended (e m idStr idBad eb : String) (id : Int) (s s2 : Student)
    (fe : FieldError) (rest : List FieldError) (db : sqlite.DB)
    (hp : parseInt64 idStr = .ok id) (hv : validateStudent s = fe :: rest)
    (hv2 : validateStudent s2 = []) (hpb : parseInt64 idBad = .error eb) :
    ((student.New sqlite.CreateStudent db Body.empty).1
       = .responded [{ status := 400, data := .resp (GeneralError "empty body") }]) ∧
    ((student.New sqlite.CreateStudent db (Body.malformed m)).1
       = .responded [{ status := 400, data := .resp (GeneralError m) }]) ∧
    ((student.New sqlite.CreateStudent db (Body.decoded s)).1
       = .responded [{ status := 400, data := .resp (ValidationError (fe :: rest)) }]) ∧
    ((student.New (fun (u : Unit) _ _ _ => (.error e, u)) () (Body.decoded s2)).1
       = .responded [{ status := 500, data := .rawErr e }]) ∧
    ((student.GetById (fun (u : Unit) _ => (.error e, u)) () idStr).1
       = .responded [{ status := 500, data := .resp (GeneralError e) }]) ∧
    ((student.GetAll (fun (u : Unit) => (.error e, u)) ()).1
       = .responded [{ status := 500, data := .rawErr e }]) ∧
    ((student.Update sqlite.UpdateStudent db idStr Body.empty).1
       = .responded [{ status := 500, data := .resp (GeneralError "EOF") }]) ∧
    ((student.Update sqlite.UpdateStudent db idStr (Body.malformed m)).1
       = .responded [{ status := 500, data := .resp (GeneralError m) }]) ∧
    ((student.Update sqlite.UpdateStudent db idStr (Body.decoded s)).1
       = .responded [{ status := 400, data := .resp (ValidationError (fe :: rest)) }]) ∧
    ((student.Update (fun (u : Unit) _ _ _ _ => (.error e, u)) () idStr (Body.decoded s2)).1
       = .responded [{ status := 500, data := .resp (GeneralError e) }]) ∧
    ((student.DeleteById sqlite.DeleteStudentById db idBad).1
       = .responded [{ status := 500, data := .resp (GeneralError eb) }]) ∧
    ((student.DeleteById (fun (u : Unit) _ => (.error e, u)) () idStr).1
       = .responded [{ status := 500, data := .resp (GeneralError e) },
                     { status := 200, data := .str "student deleted successfully" }]) ∧
    ((student.DeleteAll (fun (u : Unit) => (.error e, u)) ()).1
       = .responded [{ status := 500, data := .resp (GeneralError e) }]) := by
  unfold student.New student.GetById student.GetAll student.Update student.DeleteById
    student.DeleteAll
  rw [hp, hpb]
  dsimp only
  rw [hv, hv2]
  exact ⟨rfl, rfl, rfl, rfl, rfl, rfl, rfl, rfl, rfl, rfl, rfl, rfl, rfl⟩

/-- C5 amended witness: the raw-error create path next to an
envelope-wrapped error path, at concrete inputs. -/
theorem C5_amended_witness :
    ((student.New (fun (u : Unit) _ _ _ => (.error "boom", u)) ()
        (Body.decoded { Id := 0, Email := "a@b.com", Name := "n", Age := 5 })).1
      = .responded [{ status := 500, data := .rawErr "boom" }]) ∧
    ((student.Update (fun (u : Unit) _ _ _ _ => (.error "boom", u)) () "1"
        (Body.decoded { Id := 0, Email := "a@b.com", Name := "n", Age := 5 })).1
      = .responded [{ status := 500, data := .resp (GeneralError "boom") }]) :=
  ⟨(C5_amended "boom" "bad" "1" "abc"
      "strconv.ParseInt: parsing \"abc\": invalid syntax" 1
      { Id := 0, Email := "a@b.com", Name := "", Age := 5 }
      { Id := 0, Email := "a@b.com", Name := "n", Age := 5 }
      { field := "Name", actualTag := "required" } [] sqlite.DB.empty
      (by rfl) (by rfl) (by rfl) (by rfl)).2.2.2.1,
   (C5_amended "boom" "bad" "1" "abc"
      "strconv.ParseInt: parsing \"abc\": invalid syntax" 1
      { Id := 0, Email := "a@b.com", Name := "", Age := 5 }
      { Id := 0, Email := "a@b.com", Name := "n", Age := 5 }
      { field := "Name", actualTag := "required" } [] sqlite.DB.empty
      (by rfl) (by rfl) (by rfl) (by rfl)).2.2.2.2.2.2.2.2.2.1⟩
